import Mathlib

/-!
# Verification of the BC Test Runner process-bridge

Shallow embedding of the result-decoding, output-demultiplexing,
process-supervision and test-aggregation logic of the BC Test Runner
repository (`src/powershell/PowerShellRunner.ts` and the PowerShell
module's `Invoke-BCTests`), together with theorems settling the frozen
claims about that code.

Conventions of the embedding:
* Machine integers are `Int`/`Nat`; JSON numeric literals are modeled as
  integers (every result document produced or consumed by this code uses
  integral numbers).
* `JSON.parse` is embedded as `jsonParse : String → Option Json`
  (`none` = the JavaScript call throws).
* Filesystem state of the side-channel temp file is explicit
  (`FileState`); `fs.unlinkSync` becomes a transition to `.absent`.
-/

namespace BCTestRunner

/-- JSON values as returned by `JSON.parse`.  Object fields keep source
order; later duplicates win on property access, as in JavaScript. -/
inductive Json where
  | null
  | bool (b : Bool)
  | num (n : Int)
  | str (s : String)
  | arr (elems : List Json)
  | obj (fields : List (String × Json))

/-- JavaScript property access `doc.key` on a parsed JSON value.
`none` models `undefined`.  Access on a non-object primitive yields
`undefined`; access on `null` throws and is handled at the call sites. -/
def Json.getField : Json → String → Option Json
  | .obj fields, key => fields.foldl (fun acc f => if f.1 = key then some f.2 else acc) none
  | _, _ => none

/-- `v === false`: strict equality of a possibly-undefined value with the
boolean literal `false`. -/
def isExactlyFalse : Option Json → Bool
  | some (.bool false) => true
  | _ => false

/-! ## A JSON parser embedding `JSON.parse`

Fraction and exponent forms of numeric literals are rejected (`none`);
no document handled by this repository uses them. -/

def isJsonWs (c : Char) : Bool :=
  c = ' ' || c = '\t' || c = '\n' || c = '\r'

/-- Body of a JSON string literal, after the opening quote.  `acc` is the
reversed list of characters decoded so far. -/
def parseStringBody (acc : List Char) : List Char → Option (String × List Char)
  | '"' :: rest => some (String.mk acc.reverse, rest)
  | '\\' :: rest =>
    match rest with
    | '"' :: r => parseStringBody ('"' :: acc) r
    | '\\' :: r => parseStringBody ('\\' :: acc) r
    | '/' :: r => parseStringBody ('/' :: acc) r
    | 'b' :: r => parseStringBody ('\x08' :: acc) r
    | 'f' :: r => parseStringBody ('\x0c' :: acc) r
    | 'n' :: r => parseStringBody ('\n' :: acc) r
    | 'r' :: r => parseStringBody ('\r' :: acc) r
    | 't' :: r => parseStringBody ('\t' :: acc) r
    | _ => none
  | c :: rest => if c.val < 0x20 then none else parseStringBody (c :: acc) rest
  | [] => none

/-- Maximal run of decimal digits, accumulating their value. -/
def digitsVal (acc : Nat) : List Char → Nat × List Char
  | c :: rest =>
    if c.isDigit then digitsVal (acc * 10 + (c.toNat - 48)) rest else (acc, c :: rest)
  | [] => (acc, [])

/-- A nonempty digit run; fraction/exponent continuations are rejected. -/
def parseNatLit (cs : List Char) : Option (Nat × List Char) :=
  match cs with
  | c :: rest =>
    if c.isDigit then
      match digitsVal (c.toNat - 48) rest with
      | (_, '.' :: _) => none
      | (_, 'e' :: _) => none
      | (_, 'E' :: _) => none
      | (n, r) => some (n, r)
    else none
  | [] => none

/-- JSON numeric literal (integral). -/
def parseNumberLit (cs : List Char) : Option (Json × List Char) :=
  match cs with
  | '-' :: rest => (parseNatLit rest).map fun p => (Json.num (-(p.1 : Int)), p.2)
  | _ => (parseNatLit cs).map fun p => (Json.num (p.1 : Int), p.2)

mutual

/-- One JSON value, fueled. -/
def parseValue : Nat → List Char → Option (Json × List Char)
  | 0, _ => none
  | fuel + 1, cs =>
    match cs.dropWhile isJsonWs with
    | 'n' :: 'u' :: 'l' :: 'l' :: rest => some (.null, rest)
    | 't' :: 'r' :: 'u' :: 'e' :: rest => some (.bool true, rest)
    | 'f' :: 'a' :: 'l' :: 's' :: 'e' :: rest => some (.bool false, rest)
    | '"' :: rest => (parseStringBody [] rest).map fun p => (.str p.1, p.2)
    | '[' :: rest =>
      (match rest.dropWhile isJsonWs with
       | ']' :: r => some (.arr [], r)
       | r => parseElems fuel r [])
    | '{' :: rest =>
      (match rest.dropWhile isJsonWs with
       | '}' :: r => some (.obj [], r)
       | r => parseMembers fuel r [])
    | rest => parseNumberLit rest

/-- Array elements after the opening bracket (nonempty case). -/
def parseElems : Nat → List Char → List Json → Option (Json × List Char)
  | 0, _, _ => none
  | fuel + 1, cs, acc =>
    match parseValue fuel cs with
    | none => none
    | some (v, rest) =>
      match rest.dropWhile isJsonWs with
      | ',' :: r => parseElems fuel r (v :: acc)
      | ']' :: r => some (.arr (v :: acc).reverse, r)
      | _ => none

/-- Object members after the opening brace (nonempty case). -/
def parseMembers : Nat → List Char → List (String × Json) → Option (Json × List Char)
  | 0, _, _ => none
  | fuel + 1, cs, acc =>
    match cs.dropWhile isJsonWs with
    | '"' :: rest =>
      (match parseStringBody [] rest with
       | none => none
       | some (k, rest2) =>
         match rest2.dropWhile isJsonWs with
         | ':' :: rest3 =>
           (match parseValue fuel rest3 with
            | none => none
            | some (v, rest4) =>
              match rest4.dropWhile isJsonWs with
              | ',' :: r => parseMembers fuel r ((k, v) :: acc)
              | '}' :: r => some (.obj ((k, v) :: acc).reverse, r)
              | _ => none)
         | _ => none)
    | _ => none

end

/-- `JSON.parse`: a single JSON document with only whitespace around it. -/
def jsonParse (s : String) : Option Json :=
  match parseValue (2 * s.length + 2) s.data with
  | some (v, rest) => if rest.dropWhile isJsonWs = [] then some v else none
  | none => none

/-! ## The result decoder (`parseJsonResult`, file-based bridge variant)

Embeds `PowerShellRunner.parseJsonResult` and its helper data of
`src/powershell/PowerShellRunner.ts`: the decoder receives the raw
execution result (`PowerShellResult<string>` with stdout in `data`) and,
for side-channel invocations, the path of the unique temp file.  The
temp file is modeled by its observable state. -/

/-- Structured error copied from a `Success = false` document
(`PowerShellError` in the source); each field is the corresponding
document field, `none` = `undefined`. -/
structure PSErrorDetails where
  message : Option Json
  type : Option Json
  scriptStackTrace : Option Json
  targetObject : Option Json
  fullyQualifiedErrorId : Option Json

/-- `PowerShellResult<T>` with `T` a decoded JSON payload.  `error` is a
JSON value because the code stores both literal strings and fields of
the parsed document there. -/
structure PSResult where
  success : Bool
  data : Option Json
  error : Option Json
  errorDetails : Option PSErrorDetails
  duration : Nat
  cancelled : Bool

/-- `PowerShellResult<string>` as produced by `executeRaw`:
`data` is captured stdout. -/
structure RawResult where
  success : Bool
  data : Option String
  error : Option String
  duration : Nat
  cancelled : Bool

/-- Observable state of the side-channel temp file. -/
inductive FileState where
  | absent
  | present (content : String)

/-- Result of decoding together with the final state of the temp file. -/
structure DecodeState where
  res : PSResult
  file : FileState

/-- The stdout marker written by the bootstrap script after a successful
side-channel write. -/
def resultWrittenMarker : String := "##RESULT_WRITTEN##"

/-- `haystack.includes(needle)` (substring containment). -/
def strIncludes (haystack needle : String) : Bool :=
  go haystack.data
where
  go : List Char → Bool
    | [] => needle.data.isPrefixOf []
    | c :: rest => needle.data.isPrefixOf (c :: rest) || go rest

/-- `result.data?.includes("##RESULT_WRITTEN##")` coerced to boolean. -/
def stdoutHasMarker (raw : RawResult) : Bool :=
  match raw.data with
  | some s => strIncludes s resultWrittenMarker
  | none => false

/-- Decode a successfully parsed document: mirrors the
`parsed.Success === false` check and the two returns that follow it.
Property access on `null` throws in JavaScript and lands in the
enclosing catch; `parseFailMsg` is that catch's message. -/
def decodeDoc (doc : Json) (duration : Nat) (parseFailMsg : String) : PSResult :=
  match doc with
  | .null =>
    { success := false, data := none, error := some (.str parseFailMsg)
      errorDetails := none, duration := duration, cancelled := false }
  | _ =>
    if isExactlyFalse (doc.getField "Success") then
      { success := false
        data := none
        error := doc.getField "Error"
        errorDetails := some
          { message := doc.getField "Error"
            type := doc.getField "Type"
            scriptStackTrace := doc.getField "StackTrace"
            targetObject := doc.getField "TargetObject"
            fullyQualifiedErrorId := doc.getField "FullyQualifiedErrorId" }
        duration := duration
        cancelled := false }
    else
      { success := true, data := doc.getField "Data", error := none
        errorDetails := none, duration := duration, cancelled := false }

/-- Error message of the stdout-parse catch block (the embedding keeps
the fixed prefix; the engine-specific exception text is abstracted). -/
def stdoutParseFailMsg : String := "Failed to parse PowerShell output"

/-- Error message of the temp-file read/parse catch block. -/
def fileParseFailMsg : String := "Failed to parse result file"

/-- The stdout fallback path of `parseJsonResult` (lines guarded by the
`Fallback: try to parse from stdout` comment). -/
def stdoutFallback (raw : RawResult) : PSResult :=
  match raw.data with
  | none =>
    { success := false, data := none
      error := some (.str "No data returned from PowerShell")
      errorDetails := none, duration := raw.duration, cancelled := false }
  | some s =>
    if s = "" then
      { success := false, data := none
        error := some (.str "No data returned from PowerShell")
        errorDetails := none, duration := raw.duration, cancelled := false }
    else
      match jsonParse s with
      | none =>
        { success := false, data := none, error := some (.str stdoutParseFailMsg)
          errorDetails := none, duration := raw.duration, cancelled := false }
      | some doc => decodeDoc doc raw.duration stdoutParseFailMsg

/-- `parseJsonResult` of the file-based bridge variant.
`hasTempPath` is whether a `tempFilePath` argument was supplied (i.e.
`BC_RESULT_FILE` was set for the invocation); `file` is the state of
that temp file. -/
def parseJsonResult (raw : RawResult) (hasTempPath : Bool) (file : FileState) : DecodeState :=
  if raw.cancelled then
    -- Clean up temp file on cancellation.
    { res :=
        { success := false, data := none
          error := some (.str "Operation was cancelled")
          errorDetails := none, duration := raw.duration, cancelled := true }
      file := if hasTempPath then .absent else file }
  else if !raw.success then
    -- Clean up temp file on PowerShell execution failure.
    { res :=
        { success := false, data := none
          error := some (.str ((raw.error).getD "PowerShell execution failed"))
          errorDetails := none, duration := raw.duration, cancelled := false }
      file := if hasTempPath then .absent else file }
  else if hasTempPath then
    match file with
    | .absent =>
      if stdoutHasMarker raw then
        { res :=
            { success := false, data := none
              error := some (.str "PowerShell indicated result was written but temp file not found")
              errorDetails := none, duration := raw.duration, cancelled := false }
          file := .absent }
      else
        -- Fall through to parse from stdout if no marker.
        { res := stdoutFallback raw, file := .absent }
    | .present content =>
      -- Read, then unlink, then JSON.parse (the unlink precedes the parse).
      match jsonParse content with
      | none =>
        { res :=
            { success := false, data := none, error := some (.str fileParseFailMsg)
              errorDetails := none, duration := raw.duration, cancelled := false }
          file := .absent }
      | some doc => { res := decodeDoc doc raw.duration fileParseFailMsg, file := .absent }
  else
    { res := stdoutFallback raw, file := file }

/-! ## The output-channel demuxer (`stripAnsiCodes` / `extractJson`)

Embeds the stdout-parsing bridge variant's string pipeline.  Each
JavaScript global regex replace becomes a left-to-right scanner; the
character classes below spell out the regexes involved.  The fueled
scanners start with fuel = input length, which every call site supplies;
fuel only ever decreases by at most the number of consumed characters,
so it never runs out. -/

def escChar : Char := '\x1b'

def belChar : Char := '\x07'

/-- `[0-9;]`, the body class of a CSI sequence. -/
def isCsiBody (c : Char) : Bool := c.isDigit || c = ';'

/-- `[A-Za-z]`, the final letter of a CSI sequence. -/
def isAnsiLetter (c : Char) : Bool :=
  ('A' ≤ c && c ≤ 'Z') || ('a' ≤ c && c ≤ 'z')

/-- JavaScript line terminators (which `.` never matches). -/
def isJsLineTerm (c : Char) : Bool :=
  c = '\n' || c = '\r' || c.val = 0x2028 || c.val = 0x2029

/-- JavaScript `\s` restricted to the characters this code can meet. -/
def isJsWs (c : Char) : Bool :=
  c = ' ' || c = '\t' || c = '\n' || c = '\r' || c = '\x0b' || c = '\x0c' || c.val = 0xa0

/-- After an ESC: the rest of a `\[[0-9;]*[A-Za-z]` match, if any. -/
def csiTail : List Char → Option (List Char)
  | '[' :: rest => body rest
  | _ => none
where
  body : List Char → Option (List Char)
    | c :: rest =>
      if isCsiBody c then body rest
      else if isAnsiLetter c then some rest
      else none
    | [] => none

/-- After an ESC: the rest of a `\][^BEL]*BEL` match, if any. -/
def oscTail : List Char → Option (List Char)
  | ']' :: rest => body rest
  | _ => none
where
  body : List Char → Option (List Char)
    | c :: rest => if c = belChar then some rest else body rest
    | [] => none

/-- Global replace of `ESC\[[0-9;]*[A-Za-z]` with the empty string. -/
def stripCsiAux : Nat → List Char → List Char
  | 0, cs => cs
  | _, [] => []
  | fuel + 1, c :: rest =>
    if c = escChar then
      match csiTail rest with
      | some rest' => stripCsiAux fuel rest'
      | none => c :: stripCsiAux fuel rest
    else c :: stripCsiAux fuel rest

/-- Global replace of `ESC\][^BEL]*BEL` with the empty string. -/
def stripOscAux : Nat → List Char → List Char
  | 0, cs => cs
  | _, [] => []
  | fuel + 1, c :: rest =>
    if c = escChar then
      match oscTail rest with
      | some rest' => stripOscAux fuel rest'
      | none => c :: stripOscAux fuel rest
    else c :: stripOscAux fuel rest

/-- Global replace of `ESC.` (dot excludes line terminators). -/
def stripEscPairAux : Nat → List Char → List Char
  | 0, cs => cs
  | _, [] => []
  | fuel + 1, c :: rest =>
    if c = escChar then
      match rest with
      | d :: rest' =>
        if isJsLineTerm d then c :: stripEscPairAux fuel rest
        else stripEscPairAux fuel rest'
      | [] => [c]
    else c :: stripEscPairAux fuel rest

/-- `stripAnsiCodes`: the five sequential replaces of the source method. -/
def stripAnsiCodesL (cs : List Char) : List Char :=
  let r1 := stripCsiAux cs.length cs
  let r2 := stripOscAux r1.length r1
  let r3 := stripEscPairAux r2.length r2
  let r4 := r3.filter (fun c => c ≠ escChar)
  r4.filter (fun c => !(c.val ≤ 0x08 || c.val = 0x0b || c.val = 0x0c
    || (0x0e ≤ c.val && c.val ≤ 0x1f)))

/-- After a `[`: the rest of a `\[[0-9;]*m` match, if any. -/
def bracketMTail : List Char → Option (List Char)
  | c :: rest =>
    if isCsiBody c then bracketMTail rest
    else if c = 'm' then some rest
    else none
  | [] => none

/-- Global replace of `\[[0-9;]*m` (ANSI-like runs missing the ESC). -/
def stripBracketMAux : Nat → List Char → List Char
  | 0, cs => cs
  | _, [] => []
  | fuel + 1, c :: rest =>
    if c = '[' then
      match bracketMTail rest with
      | some rest' => stripBracketMAux fuel rest'
      | none => c :: stripBracketMAux fuel rest
    else c :: stripBracketMAux fuel rest

/-- Drop the `.*$` part of a matched diagnostic line: everything up to
(but excluding) the next line terminator. -/
def dropLineRest : List Char → List Char
  | [] => []
  | c :: rest => if isJsLineTerm c then c :: rest else dropLineRest rest

/-- Multiline global replace of `^TAG.*$` with the empty string
(`atStart` tracks whether the scanner sits at a line start). -/
def stripTaggedAux (tag : List Char) : Nat → Bool → List Char → List Char
  | 0, _, cs => cs
  | _, _, [] => []
  | fuel + 1, atStart, c :: rest =>
    if atStart && tag.isPrefixOf (c :: rest) then
      stripTaggedAux tag fuel false (dropLineRest (c :: rest))
    else c :: stripTaggedAux tag fuel (isJsLineTerm c) rest

def stripTagged (tag : String) (cs : List Char) : List Char :=
  stripTaggedAux tag.data cs.length true cs

/-- Lazy `.*?##`: the earliest terminating `##` reachable without
crossing a line terminator; returns what follows it. -/
def findHashHash : List Char → Option (List Char)
  | '#' :: '#' :: rest => some rest
  | c :: rest => if isJsLineTerm c then none else findHashHash rest
  | [] => none

def progressTag : List Char := "##PROGRESS##".data

/-- Global replace of `##PROGRESS##.*?##` with the empty string. -/
def stripProgressAux : Nat → List Char → List Char
  | 0, cs => cs
  | _, [] => []
  | fuel + 1, c :: rest =>
    if progressTag.isPrefixOf (c :: rest) then
      match findHashHash (List.drop progressTag.length (c :: rest)) with
      | some rest' => stripProgressAux fuel rest'
      | none => c :: stripProgressAux fuel rest
    else c :: stripProgressAux fuel rest

/-- Does `\{\s*"KEY"\s*:` match at this position?  (The two
`\{\s*\r?\n\s*` pattern variants of the source are subsumed by `\s*`
and share the same start index, so they never change the maximum.) -/
def matchJsonStartAt (key : List Char) : List Char → Bool
  | '{' :: rest =>
    let afterWs := rest.dropWhile isJsWs
    key.isPrefixOf afterWs &&
      (match (List.drop key.length afterWs).dropWhile isJsWs with
       | ':' :: _ => true
       | _ => false)
  | _ => false

def successKey : List Char := "\"Success\"".data

def dataKey : List Char := "\"Data\"".data

/-- Index of the last result-object opening (`lastJsonStart` loop). -/
def lastJsonStartAux : Nat → List Char → Option Nat → Nat → Option Nat
  | 0, _, best, _ => best
  | _, [], best, _ => best
  | fuel + 1, c :: rest, best, idx =>
    let here := matchJsonStartAt successKey (c :: rest)
      || matchJsonStartAt dataKey (c :: rest)
    lastJsonStartAux fuel rest (if here then some idx else best) (idx + 1)

def lastJsonStart (cs : List Char) : Option Nat :=
  lastJsonStartAux cs.length cs none 0

/-- The brace-matching loop: depth counting that skips braces inside
quoted strings (with backslash escapes); returns the exclusive end
index of the candidate when depth returns to zero. -/
def jsonEndAux : List Char → Int → Bool → Bool → Nat → Option Nat
  | [], _, _, _, _ => none
  | c :: rest, depth, inStr, esc, i =>
    if esc then jsonEndAux rest depth inStr false (i + 1)
    else if c = '\\' && inStr then jsonEndAux rest depth inStr true (i + 1)
    else if c = '"' then jsonEndAux rest depth (!inStr) esc (i + 1)
    else if !inStr && c = '{' then jsonEndAux rest (depth + 1) inStr esc (i + 1)
    else if !inStr && c = '}' then
      if depth - 1 = 0 then some (i + 1)
      else jsonEndAux rest (depth - 1) inStr esc (i + 1)
    else jsonEndAux rest depth inStr esc (i + 1)

/-- JavaScript `String.prototype.trim` on the characters this code can
meet. -/
def trimJsL (cs : List Char) : List Char :=
  ((cs.dropWhile isJsWs).reverse.dropWhile isJsWs).reverse

/-- `extractJson`: ANSI stripping, diagnostic-line and progress-marker
removal, then last-result-object extraction by brace matching; falls
back to the cleaned, trimmed output. -/
def extractJsonL (cs : List Char) : List Char :=
  let c1 := stripAnsiCodesL cs
  let c2 := stripBracketMAux c1.length c1
  let c3 := stripTagged "DEBUG:" (stripTagged "VERBOSE:" (stripTagged "WARNING:" c2))
  let cleaned := stripProgressAux c3.length c3
  match lastJsonStart cleaned with
  | some idx =>
    let candidate := cleaned.drop idx
    (match jsonEndAux candidate 0 false false 0 with
     | some e => candidate.take e
     | none => trimJsL cleaned)
  | none => trimJsL cleaned

def extractJson (s : String) : String :=
  String.mk (extractJsonL s.data)

/-! ## Process supervision (`executeRaw` close path, timeout, `cancel`)

The supervisor's event handlers are embedded as pure functions of the
observable process behaviour: when the child closes, which exit code it
reports, and what it wrote to the two streams.  Signals sent to the
child are recorded explicitly. -/

inductive Signal where
  | sigterm
  | sigkill
deriving DecidableEq

/-- What one invocation's child process observably did. -/
structure ProcObservation where
  /-- Milliseconds from spawn until the `close` event fires. -/
  exitTimeMs : Nat
  /-- Exit code of the child; `none` models Node's `null` (killed by signal). -/
  exitCode : Option Int
  stdout : String
  stderr : String

/-- `options?.timeout ?? 600000` — the 10-minute default. -/
def defaultTimeoutMs : Nat := 600000

/-- Whether the timeout timer fires before the close event. -/
def timeoutTriggered (timeoutMs : Nat) (obs : ProcObservation) : Bool :=
  decide (timeoutMs < obs.exitTimeMs)

/-- Signals the timeout handler sends to the child: a single SIGTERM,
and nothing else (the timeout path has no SIGKILL escalation). -/
def timeoutKillSignals (timeoutMs : Nat) (obs : ProcObservation) : List Signal :=
  if timeoutMs < obs.exitTimeMs then [Signal.sigterm] else []

/-- `${code}` interpolation of a Node exit code. -/
def exitCodeText : Option Int → String
  | none => "null"
  | some n => toString n

/-- The `close` event handler of `executeRaw`: the raw result resolved
to the caller, as a function of the `cancelled` flag, exit code,
captured streams and elapsed duration. -/
def closeResult (cancelled : Bool) (code : Option Int) (stdout stderr : String)
    (duration : Nat) : RawResult :=
  if cancelled then
    { success := false, data := none, error := some "Operation was cancelled"
      duration := duration, cancelled := true }
  else if code ≠ some 0 ∧ stdout = "" then
    { success := false, data := none
      error := some (if stderr = "" then "PowerShell exited with code " ++ exitCodeText code
                     else stderr)
      duration := duration, cancelled := false }
  else
    { success := true, data := some stdout, error := none
      duration := duration, cancelled := false }

/-- The raw result of one `executeRaw` invocation: the `cancelled` flag
is set by the cancellation-token handler or by the timeout timer. -/
def executeRawOutcome (timeoutMs : Nat) (userCancelled : Bool)
    (obs : ProcObservation) : RawResult :=
  closeResult (userCancelled || timeoutTriggered timeoutMs obs)
    obs.exitCode obs.stdout obs.stderr obs.exitTimeMs

/-- The runner's shared mutable state: `runningProcess`, holding the
(pid of the) live child process or `null`. -/
structure RunnerState where
  runningProcess : Option Nat
deriving DecidableEq

/-- `isRunning()`: `this.runningProcess !== null`. -/
def isRunning (s : RunnerState) : Bool :=
  s.runningProcess.isSome

/-- Immediate effect of one `cancel()` call: if a process handle is
set, send SIGTERM (and schedule `cancelForceKillTimer`); the handle
itself is not cleared here.  With no handle, nothing happens. -/
def cancel (s : RunnerState) : RunnerState × List Signal :=
  match s.runningProcess with
  | some _ => (s, [Signal.sigterm])
  | none => (s, [])

/-- The 5-second force-kill timer scheduled by `cancel()`: if the
handle is still set when it fires, send SIGKILL and clear the handle. -/
def cancelForceKillTimer (s : RunnerState) : RunnerState × List Signal :=
  match s.runningProcess with
  | some _ => ({ runningProcess := none }, [Signal.sigkill])
  | none => (s, [])

/-- The `close`/`error` handlers both clear the shared handle. -/
def onProcessClose (_ : RunnerState) : RunnerState :=
  { runningProcess := none }

/-- Start of `executeRaw`: spawn and assign the new process to the
shared handle.  The source performs this assignment unconditionally —
there is no busy check, queueing, or cancellation of a prior job, and
no signal is sent to any previously running process. -/
def startJob (_ : RunnerState) (newPid : Nat) : RunnerState × List Signal :=
  ({ runningProcess := some newPid }, [])

/-! ## `Invoke-BCTests` aggregation (PowerShell module)

Embeds the xUnit-result aggregation loop and the success flag of
`Invoke-BCTests`.  The workspace file lookup performed by
`Get-ParsedStackTrace` (`Get-ChildItem -Recurse`) is a filesystem
query and is passed in as an oracle. -/

/-- One `<test>` element of the xUnit results document. -/
structure XUnitTest where
  method : String
  name : String
  result : String
  failureMessage : String
  failureStackTrace : String
  time : String

/-- One `<assembly>` element with its summary attributes (already
`[int]`-cast) and its tests. -/
structure XUnitAssembly where
  name : String
  total : Int
  passed : Int
  failed : Int
  skipped : Int
  tests : List XUnitTest

/-- `\w` of the stack-trace pattern. -/
def isWordChar (c : Char) : Bool := c.isAlphanum || c = '_'

/-- Digit-run value. -/
def digitsToNat (ds : List Char) : Nat :=
  ds.foldl (fun a c => a * 10 + (c.toNat - 48)) 0

/-- Attempt the pattern
`(?<codeunit>[^(]+)\((?<id>\d+)\)\.(?<method>\w+)\s+line\s+(?<line>\d+)`
at this position; every quantified class is disjoint from what follows
it, so greedy matching without backtracking is exact. -/
def matchStackAt (cs : List Char) : Option (String × Nat × String × Nat) :=
  let cu := cs.takeWhile (fun c => c ≠ '(')
  if cu.isEmpty then none else
  match cs.drop cu.length with
  | '(' :: r1 =>
    let ds := r1.takeWhile Char.isDigit
    if ds.isEmpty then none else
    (match r1.drop ds.length with
     | ')' :: '.' :: r2 =>
       let m := r2.takeWhile isWordChar
       if m.isEmpty then none else
       let r3 := r2.drop m.length
       let ws1 := r3.takeWhile isJsWs
       if ws1.isEmpty then none else
       let r4 := r3.drop ws1.length
       if ("line".data).isPrefixOf r4 then
         let r5 := r4.drop 4
         let ws2 := r5.takeWhile isJsWs
         if ws2.isEmpty then none else
         let ln := (r5.drop ws2.length).takeWhile Char.isDigit
         if ln.isEmpty then none else
         some (String.mk cu, digitsToNat ds, String.mk m, digitsToNat ln)
       else none
     | _ => none)
  | _ => none

/-- Leftmost match of the stack-trace pattern. -/
def firstStackMatch : List Char → Option (String × Nat × String × Nat)
  | [] => none
  | c :: rest =>
    match matchStackAt (c :: rest) with
    | some g => some g
    | none => firstStackMatch rest

/-- Parsed stack-trace information (`Get-ParsedStackTrace` return). -/
structure StackInfo where
  codeunit : String
  codeunitId : Int
  method : String
  lineNumber : Int
  filePath : Option String

/-- `Get-ParsedStackTrace`: empty text yields `$null`; otherwise the
first match of the AL trace pattern, with the codeunit name trimmed and
the workspace searched (via the `fileSearch` oracle) for
`<codeunit>.Codeunit.al`. -/
def getParsedStackTrace (fileSearch : String → Option String)
    (stackTraceText : String) : Option StackInfo :=
  if stackTraceText = "" then none
  else
    match firstStackMatch stackTraceText.data with
    | some (cu, id, m, line) =>
      let codeunitName := String.mk (trimJsL cu.data)
      some { codeunit := codeunitName, codeunitId := (id : Int), method := m
             lineNumber := (line : Int)
             filePath := fileSearch (codeunitName ++ ".Codeunit.al") }
    | none => none

/-- First match of `\((\d+)\)` in an assembly name, for the
`CodeunitId` extraction. -/
def parenNum : List Char → Option Int
  | [] => none
  | '(' :: rest =>
    let ds := rest.takeWhile Char.isDigit
    if !ds.isEmpty &&
        (match rest.drop ds.length with | ')' :: _ => true | _ => false) then
      some (digitsToNat ds : Int)
    else parenNum rest
  | _ :: rest => parenNum rest

/-- A `$result.TestResults` entry (`$testInfo`). -/
structure TestResultRec where
  codeunit : String
  codeunitId : Int
  method : String
  name : String
  result : String
  duration : String
deriving DecidableEq

/-- A `$result.Failures` entry (`$failureInfo`). -/
structure TestFailureRec where
  codeunit : String
  codeunitId : Int
  method : String
  name : String
  error : String
  stackTrace : String
  duration : String
  filePath : Option String
  lineNumber : Option Int
deriving DecidableEq

/-- The aggregate `$result` object of `Invoke-BCTests`. -/
structure InvokeBCTestsOutcome where
  totalTests : Int
  passedTests : Int
  failedTests : Int
  skippedTests : Int
  testResults : List TestResultRec
  failures : List TestFailureRec
  success : Bool

/-- The `$testInfo` record for one test of one assembly. -/
def mkTestResultRec (assemblyName : String) (cid : Int) (t : XUnitTest) : TestResultRec :=
  { codeunit := assemblyName, codeunitId := cid, method := t.method
    name := t.name, result := t.result, duration := t.time }

/-- The `$failureInfo` record for one failed test. -/
def mkFailureRec (fileSearch : String → Option String) (assemblyName : String)
    (cid : Int) (t : XUnitTest) : TestFailureRec :=
  let base : TestFailureRec :=
    { codeunit := assemblyName, codeunitId := cid, method := t.method
      name := t.name, error := t.failureMessage, stackTrace := t.failureStackTrace
      duration := t.time, filePath := none, lineNumber := none }
  match getParsedStackTrace fileSearch t.failureStackTrace with
  | some si => { base with filePath := si.filePath, lineNumber := some si.lineNumber }
  | none => base

/-- The aggregation loop over assemblies (summing the `[int]` summary
attributes, collecting per-test records, and collecting a failure
record for each test whose result is `Fail`), followed by
`$result.Success = ($result.FailedTests -eq 0) -and ($result.TotalTests -gt 0)`. -/
def invokeBCTests (fileSearch : String → Option String)
    (assemblies : List XUnitAssembly) : InvokeBCTestsOutcome :=
  let agg := assemblies.foldl
    (fun (acc : InvokeBCTestsOutcome) (a : XUnitAssembly) =>
      let cid := (parenNum a.name.data).getD 0
      { acc with
        totalTests := acc.totalTests + a.total
        passedTests := acc.passedTests + a.passed
        failedTests := acc.failedTests + a.failed
        skippedTests := acc.skippedTests + a.skipped
        testResults := acc.testResults ++ a.tests.map (mkTestResultRec a.name cid)
        failures := acc.failures ++
          (a.tests.filter (fun t => t.result = "Fail")).map (mkFailureRec fileSearch a.name cid) })
    { totalTests := 0, passedTests := 0, failedTests := 0, skippedTests := 0
      testResults := [], failures := [], success := false }
  { agg with success := decide (agg.failedTests = 0 ∧ 0 < agg.totalTests) }

/-! ## Helper lemmas -/

/-- With a temp path, no cancellation, a successful raw execution and
the temp file present with parseable content, the decoder decodes the
parsed document and deletes the file. -/
theorem parseJsonResult_present (raw : RawResult) (content : String) (doc : Json)
    (hc : raw.cancelled = false) (hs : raw.success = true)
    (hp : jsonParse content = some doc) :
    parseJsonResult raw true (.present content) =
      ⟨decodeDoc doc raw.duration fileParseFailMsg, .absent⟩ := by
  simp [parseJsonResult, hc, hs, hp]

/-- A parsed document whose `Success` field is exactly the boolean
`true` decodes to the success branch carrying its `Data` field. -/
theorem decodeDoc_of_success_true (doc : Json) (d : Nat) (msg : String)
    (hd : doc.getField "Success" = some (.bool true)) :
    decodeDoc doc d msg =
      { success := true, data := doc.getField "Data", error := none
        errorDetails := none, duration := d, cancelled := false } := by
  cases doc with
  | null => simp [Json.getField] at hd
  | bool b => simp [Json.getField] at hd
  | num n => simp [Json.getField] at hd
  | str s => simp [Json.getField] at hd
  | arr elems => simp [Json.getField] at hd
  | obj fields => simp [decodeDoc, hd, isExactlyFalse]

/-! ## The claims -/

/-- Claim C1: for every side-channel result document that parses as
JSON and whose success discriminator (the `Success` field of the
document the bootstrap script writes) is `true`, the decoder returns a
success outcome whose `data` is deep-equal to the document's data
(`Data`) field, with `cancelled = false`. -/
theorem claim_C1_success_payload (raw : RawResult) (content : String) (doc : Json)
    (hc : raw.cancelled = false) (hs : raw.success = true)
    (hp : jsonParse content = some doc)
    (hd : doc.getField "Success" = some (.bool true)) :
    (parseJsonResult raw true (.present content)).res =
      { success := true, data := doc.getField "Data", error := none
        errorDetails := none, duration := raw.duration, cancelled := false } := by
  rw [parseJsonResult_present raw content doc hc hs hp]
  exact decodeDoc_of_success_true doc raw.duration fileParseFailMsg hd

/-- Witness for claim C1 at a concrete document. -/
theorem claim_C1_success_payload_witness :
    (parseJsonResult ⟨true, none, none, 7, false⟩ true
        (.present "\x7b\"Success\":true,\"Data\":\x7b\"x\":1\x7d\x7d")).res =
      { success := true, data := some (.obj [("x", Json.num 1)]), error := none
        errorDetails := none, duration := 7, cancelled := false } :=
  claim_C1_success_payload ⟨true, none, none, 7, false⟩
    "\x7b\"Success\":true,\"Data\":\x7b\"x\":1\x7d\x7d"
    (Json.obj [("Success", Json.bool true), ("Data", Json.obj [("x", Json.num 1)])])
    rfl rfl rfl rfl

/-- Counterexample to claim C2: with a side-channel path provided but
the file absent and no marker on stdout, the decoder derives the
outcome from stdout — two invocations identical except for stdout get
different outcomes. -/
theorem claim_C2_stdout_decides_counterexample :
    (parseJsonResult
        ⟨true, some "\x7b\"Success\":true,\"Data\":\x7b\"x\":1\x7d\x7d", none, 5, false⟩
        true .absent).res.success = true
    ∧ (parseJsonResult
        ⟨true, some "\x7b\"Success\":false,\"Error\":\"boom\"\x7d", none, 5, false⟩
        true .absent).res.success = false :=
  ⟨rfl, rfl⟩

/-- Claim C2 (amended): when a side-channel path was provided and the
result file exists, the outcome is derived solely from the file —
stdout content (and the raw error text) is irrelevant; but if the file
is absent and stdout lacks the `##RESULT_WRITTEN##` marker, the
decoder falls back to deriving the outcome from stdout. -/
theorem claim_C2_file_present_ignores_stdout (d : Nat) (s1 s2 e1 e2 : Option String)
    (content : String) :
    parseJsonResult ⟨true, s1, e1, d, false⟩ true (.present content)
      = parseJsonResult ⟨true, s2, e2, d, false⟩ true (.present content) :=
  rfl

/-- Counterexample to claim C3: the process exited, the side-channel
file is absent, and the decoder reports a success outcome (decoded
from stdout) rather than a malformed-result failure. -/
theorem claim_C3_missing_file_success_counterexample :
    (parseJsonResult
        ⟨true, some "\x7b\"Success\":true,\"Data\":\x7b\"y\":2\x7d\x7d", none, 9, false⟩
        true .absent).res.success = true :=
  rfl

/-- Claim C3 (amended): when the process exited but the side-channel
file is absent, the decoder checks for the file exactly once — no
retries, no waits — and never hangs (it is a total function): if
stdout carries the `##RESULT_WRITTEN##` marker it immediately returns
a failure naming the missing temp file; otherwise it falls back to
decoding stdout, which may report any outcome including success. -/
theorem claim_C3_missing_file_no_retry (raw : RawResult)
    (hc : raw.cancelled = false) (hs : raw.success = true) :
    (stdoutHasMarker raw = true →
      (parseJsonResult raw true .absent).res =
        { success := false, data := none
          error := some (.str "PowerShell indicated result was written but temp file not found")
          errorDetails := none, duration := raw.duration, cancelled := false })
    ∧ (stdoutHasMarker raw = false →
      parseJsonResult raw true .absent = ⟨stdoutFallback raw, .absent⟩) := by
  constructor <;> intro h <;> simp [parseJsonResult, hc, hs, h]

/-- Witness for claim C3 (amended) at a marker-bearing invocation. -/
theorem claim_C3_missing_file_no_retry_witness :
    (parseJsonResult ⟨true, some "##RESULT_WRITTEN##", none, 4, false⟩ true .absent).res =
      { success := false, data := none
        error := some (.str "PowerShell indicated result was written but temp file not found")
        errorDetails := none, duration := 4, cancelled := false } :=
  (claim_C3_missing_file_no_retry ⟨true, some "##RESULT_WRITTEN##", none, 4, false⟩
    rfl rfl).1 rfl

/-- Counterexample to claim C4: on the claim's literal input (lowercase
`success`/`data` keys) the demuxer does not return the claimed
substring — its result-object patterns match the capitalized
`"Success"`/`"Data"` discriminator keys, so no opening is found and the
whole cleaned input is returned trimmed. -/
theorem claim_C4_lowercase_counterexample :
    extractJson
        "noise \x7b\"a\":1,\"b\":\"\x7d\x7b\"\x7d more noise \x7b\"success\":true,\"data\":\x7b\"x\":1\x7d\x7d"
      ≠ "\x7b\"success\":true,\"data\":\x7b\"x\":1\x7d\x7d" := by
  decide

/-- Claim C4 (amended): with the code's discriminator capitalization
the demuxer extracts exactly the last result object by brace-depth
matching, not counting braces inside quoted strings; the claim's
literal lowercase input falls through to the cleaned, trimmed whole
input. -/
theorem claim_C4_brace_extraction :
    extractJson
        "noise \x7b\"a\":1,\"b\":\"\x7d\x7b\"\x7d more noise \x7b\"Success\":true,\"Data\":\x7b\"x\":1\x7d\x7d"
      = "\x7b\"Success\":true,\"Data\":\x7b\"x\":1\x7d\x7d"
    ∧ extractJson "junk \x7b\"Success\":true,\"Data\":\"\x7d\x7b\"\x7d tail"
      = "\x7b\"Success\":true,\"Data\":\"\x7d\x7b\"\x7d"
    ∧ extractJson
        "noise \x7b\"a\":1,\"b\":\"\x7d\x7b\"\x7d more noise \x7b\"success\":true,\"data\":\x7b\"x\":1\x7d\x7d"
      = "noise \x7b\"a\":1,\"b\":\"\x7d\x7b\"\x7d more noise \x7b\"success\":true,\"data\":\x7b\"x\":1\x7d\x7d" :=
  ⟨rfl, rfl, rfl⟩

/-- Counterexample to claim C5: a run whose process has not exited
within the default timeout yields a result byte-identical to that of a
user-cancelled run — the error text is the generic
`Operation was cancelled`, so no timeout-specific error kind is
reported. -/
theorem claim_C5_no_timeout_kind_counterexample :
    executeRawOutcome defaultTimeoutMs false ⟨600001, none, "", ""⟩
      = executeRawOutcome defaultTimeoutMs true ⟨600001, none, "", ""⟩
    ∧ (executeRawOutcome defaultTimeoutMs false ⟨600001, none, "", ""⟩).error
      = some "Operation was cancelled" :=
  ⟨rfl, rfl⟩

/-- Claim C5 (amended): if the process has not exited within the
configured timeout, the supervisor sends it a single SIGTERM (no
SIGKILL escalation on the timeout path) and the returned raw result
reports the cancelled outcome with the generic error text
`Operation was cancelled` — indistinguishable from user cancellation,
with no timeout-specific error kind. -/
theorem claim_C5_timeout_cancelled (timeoutMs : Nat) (userCancelled : Bool)
    (obs : ProcObservation) (h : timeoutMs < obs.exitTimeMs) :
    timeoutKillSignals timeoutMs obs = [Signal.sigterm]
    ∧ executeRawOutcome timeoutMs userCancelled obs =
      { success := false, data := none, error := some "Operation was cancelled"
        duration := obs.exitTimeMs, cancelled := true } := by
  simp [timeoutKillSignals, executeRawOutcome, timeoutTriggered, closeResult, h]

/-- Witness for claim C5 (amended): a process still alive 30 ms past
the default 10-minute timeout. -/
theorem claim_C5_timeout_cancelled_witness :
    timeoutKillSignals defaultTimeoutMs ⟨600030, none, "", ""⟩ = [Signal.sigterm]
    ∧ executeRawOutcome defaultTimeoutMs false ⟨600030, none, "", ""⟩ =
      { success := false, data := none, error := some "Operation was cancelled"
        duration := 600030, cancelled := true } :=
  claim_C5_timeout_cancelled defaultTimeoutMs false ⟨600030, none, "", ""⟩ (by decide)

/-- Counterexample to claim C6: a second `cancel` call made while the
process handle is still set (the first call does not clear it) sends a
further, nonempty batch of signals — another SIGTERM — to the process. -/
theorem claim_C6_second_cancel_counterexample :
    (cancel (cancel ⟨some 1⟩).1).2 = [Signal.sigterm]
    ∧ ([Signal.sigterm] : List Signal) ≠ [] :=
  ⟨rfl, by decide⟩

/-- Claim C6 (amended): calling `cancel` when no job is running, or
after the job completed (the close handler cleared the handle), is a
no-op; but a second `cancel` while the process handle is still set
leaves the state unchanged and re-sends SIGTERM (scheduling another
force-kill), an additional observable signal. -/
theorem claim_C6_cancel_idle_noop (s : RunnerState) :
    (s.runningProcess = none → cancel s = (s, []))
    ∧ (∀ p, s.runningProcess = some p →
        (cancel s).1 = s ∧ (cancel s).2 = [Signal.sigterm])
    ∧ cancel (onProcessClose s) = (onProcessClose s, []) := by
  refine ⟨fun h => ?_, fun p h => ?_, ?_⟩
  · simp [cancel, h]
  · simp [cancel, h]
  · simp [cancel, onProcessClose]

/-- Witness for claim C6 (amended) at concrete runner states. -/
theorem claim_C6_cancel_idle_noop_witness :
    cancel ⟨none⟩ = (⟨none⟩, [])
    ∧ ((cancel ⟨some 2⟩).1 = ⟨some 2⟩ ∧ (cancel ⟨some 2⟩).2 = [Signal.sigterm]) :=
  ⟨(claim_C6_cancel_idle_noop ⟨none⟩).1 rfl,
   (claim_C6_cancel_idle_noop ⟨some 2⟩).2.1 2 rfl⟩

/-- Counterexample to claim C7: while a job is running
(`isRunning = true`), starting a new job silently overwrites the
shared running-process handle and sends no signal to (and performs no
cancellation of) the prior process. -/
theorem claim_C7_silent_overwrite_counterexample :
    isRunning ⟨some 1⟩ = true ∧ startJob ⟨some 1⟩ 2 = (⟨some 2⟩, []) :=
  ⟨rfl, rfl⟩

/-- Claim C7 (amended): `executeRaw` assigns the newly spawned process
to the shared handle unconditionally — from any state, busy or idle,
starting a job overwrites the handle and takes no action (reject,
queue, or cancel) toward a previously running process. -/
theorem claim_C7_start_overwrites (s : RunnerState) (p : Nat) :
    startJob s p = (⟨some p⟩, []) :=
  rfl

/-- Claim C8: on a result document with summary total 10 / passed 8 /
failed 2 / skipped 0 and one failure record, `Invoke-BCTests` surfaces
`Success = false` with exactly that one failure record; and in general
its success flag is true iff the failed count is zero and the total
count is positive. -/
theorem claim_C8_success_iff_no_failures :
    ((invokeBCTests (fun _ => none)
        [⟨"C", 10, 8, 2, 0, [⟨"M", "C:M", "Fail", "E", "", "00:00:01"⟩]⟩]).success = false
     ∧ (invokeBCTests (fun _ => none)
        [⟨"C", 10, 8, 2, 0, [⟨"M", "C:M", "Fail", "E", "", "00:00:01"⟩]⟩]).failures
        = [⟨"C", 0, "M", "C:M", "E", "", "00:00:01", none, none⟩])
    ∧ ∀ (fileSearch : String → Option String) (assemblies : List XUnitAssembly),
        (invokeBCTests fileSearch assemblies).success = true
          ↔ (invokeBCTests fileSearch assemblies).failedTests = 0
            ∧ 0 < (invokeBCTests fileSearch assemblies).totalTests := by
  refine ⟨⟨rfl, rfl⟩, fun fileSearch assemblies => ?_⟩
  simp [invokeBCTests]

/-- Counterexample to claim C9: the valid JSON document `\x7b\x7d`
(missing the success discriminator entirely) makes the decoder return
a success outcome with no data — not a malformed-result failure. -/
theorem claim_C9_missing_field_counterexample :
    (parseJsonResult ⟨true, none, none, 3, false⟩ true (.present "\x7b\x7d")).res.success = true
    ∧ (parseJsonResult ⟨true, none, none, 3, false⟩ true (.present "\x7b\x7d")).res.data = none :=
  ⟨rfl, rfl⟩

/-- Claim C9 (amended): the decoder validates only the success
discriminator, and only against the exact boolean `false`: a valid
JSON object document whose `Success` field is missing or not exactly
`false` yields a success outcome whose data is the document's `Data`
field (absent when missing); an exact `Success = false` yields a
failure with the message copied from the document's `Error` field.
Unknown or extra fields are ignored either way. -/
theorem claim_C9_discriminator_only (raw : RawResult) (content : String)
    (fields : List (String × Json))
    (hc : raw.cancelled = false) (hs : raw.success = true)
    (hp : jsonParse content = some (.obj fields)) :
    (isExactlyFalse ((Json.obj fields).getField "Success") = false →
      (parseJsonResult raw true (.present content)).res =
        { success := true, data := (Json.obj fields).getField "Data", error := none
          errorDetails := none, duration := raw.duration, cancelled := false })
    ∧ (isExactlyFalse ((Json.obj fields).getField "Success") = true →
      (parseJsonResult raw true (.present content)).res.success = false
      ∧ (parseJsonResult raw true (.present content)).res.error
          = (Json.obj fields).getField "Error") := by
  rw [parseJsonResult_present raw content (.obj fields) hc hs hp]
  constructor <;> intro h <;> simp [decodeDoc, h]

/-- Witness for claim C9 (amended) at the empty document. -/
theorem claim_C9_discriminator_only_witness :
    (parseJsonResult ⟨true, none, none, 6, false⟩ true (.present "\x7b\x7d")).res =
      { success := true, data := none, error := none
        errorDetails := none, duration := 6, cancelled := false } :=
  (claim_C9_discriminator_only ⟨true, none, none, 6, false⟩ "\x7b\x7d" []
    rfl rfl rfl).1 rfl

/-- Claim C10: whenever the decoder runs with a side-channel temp path
and the temp file exists, the file is deleted before the decoder
returns, in every outcome branch — cancellation, raw execution
failure, unparseable content, and the two decoded outcomes. -/
theorem claim_C10_temp_file_deleted (raw : RawResult) (content : String) :
    (parseJsonResult raw true (.present content)).file = FileState.absent := by
  rcases raw with ⟨s, d, e, dur, c⟩
  cases c
  · cases s
    · simp [parseJsonResult]
    · cases h : jsonParse content <;> simp [parseJsonResult, h]
  · simp [parseJsonResult]

end BCTestRunner
